import Mathlib

/-!
Shallow embedding of the voicefixer_service repository
(pipeline orchestrator, audio mixing engine, converter, denoiser and
separation wrappers) together with theorems settling the specification
claims.

Modelling conventions:
* pydub `AudioSegment` values are modelled at millisecond granularity:
  the `samples` list holds one (rational, ideal-arithmetic) amplitude per
  millisecond, since every length, slice, silence and fade in the mixer
  source is expressed in milliseconds.  The `frame_rate` and `channels`
  fields carry the pydub metadata; appending two segments synchronises
  them to the larger value, as pydub `_sync` does.
* the `dbfs` field models pydub's measured loudness (`AudioSegment.dBFS`)
  through gain operations: `apply_gain g` scales the linear samples and
  shifts the measured loudness by exactly `g` dB in ideal real
  arithmetic.  Operations that change the content (slicing, appending,
  overlay, fades) would make pydub re-measure the loudness; the model
  carries a nominal value across those operations, and no theorem below
  observes the field across them.
* the decibel-to-linear factor `10 ^ (g / 20)` and the pydub fade ramp
  are transcendental; they are taken as parameters (`dbGain`, `ramp`) so
  that every definition stays executable over the rationals.
* filesystem state is an association list from path strings to abstract
  content identifiers; external tools (ffmpeg, demucs, voicefixer) are
  parameters or boolean outcome flags, with their documented effect on
  the filesystem written out explicitly.
-/

deriving instance DecidableEq for Except

/-- Filesystem model: an association list from absolute path strings to
abstract content identifiers.  `fsLookup` is `List.lookup` specialised. -/
abbrev FS : Type := List (String × Nat)

/-- Look a path up in the filesystem model. -/
def fsLookup (fs : FS) (p : String) : Option Nat :=
  List.lookup p fs

/-- Membership of a path in the filesystem model. -/
def fsHas (fs : FS) (p : String) : Bool :=
  (fsLookup fs p).isSome

/-- Add (or shadow) a file in the filesystem model. -/
def fsPut (fs : FS) (p : String) (c : Nat) : FS :=
  (p, c) :: fs

/-- In-memory audio track, modelling a pydub `AudioSegment` at
millisecond granularity (see the module docstring). -/
structure AudioSegment where
  frame_rate : Nat
  channels : Nat
  samples : List ℚ
  dbfs : ℚ
deriving DecidableEq, Repr

namespace AudioSegment

/-- Length in milliseconds (`len(segment)` in pydub, at the model's
millisecond granularity). -/
def msLen (s : AudioSegment) : Nat :=
  s.samples.length

/-- Model of pydub `apply_gain g` (also `segment + g` / `segment - g`):
every linear sample is scaled by the linear factor `dbGain g`
(really `10 ^ (g / 20)`, abstracted), and the measured loudness moves by
exactly `g` dB. -/
def applyGain (dbGain : ℚ → ℚ) (g : ℚ) (s : AudioSegment) : AudioSegment :=
  ⟨s.frame_rate, s.channels, s.samples.map (fun x => x * dbGain g), s.dbfs + g⟩

/-- Model of pydub slicing `segment[:n]` with `n` in milliseconds. -/
def sliceTo (n : Nat) (s : AudioSegment) : AudioSegment :=
  ⟨s.frame_rate, s.channels, s.samples.take n, s.dbfs⟩

/-- Model of pydub concatenation `a + b`: `AudioSegment._sync` raises
both operands to the larger frame rate and channel count (content is
preserved at millisecond granularity), then the data is concatenated. -/
def append (a b : AudioSegment) : AudioSegment :=
  ⟨max a.frame_rate b.frame_rate, max a.channels b.channels,
    a.samples ++ b.samples, a.dbfs⟩

/-- Model of pydub repetition `segment * n` (n-fold concatenation with
itself; the frame rate and channel count are unchanged). -/
def repeatSeg (n : Nat) (s : AudioSegment) : AudioSegment :=
  ⟨s.frame_rate, s.channels, (List.replicate n s.samples).flatten, s.dbfs⟩

/-- Model of `AudioSegment.silent(duration=d, frame_rate=fr)`: `d`
milliseconds of zero samples, one channel (the pydub default).  pydub
reports the loudness of silence as negative infinity; the model carries
a nominal `0`, which no theorem observes. -/
def silent (d : Nat) (fr : Nat) : AudioSegment :=
  ⟨fr, 1, List.replicate d 0, 0⟩

/-- Helper for `fadeIn`: multiply the samples at indices `< d` (counting
from `i`) by the ramp factor. -/
def fadeInSamples (ramp : Nat → Nat → ℚ) (d : Nat) : Nat → List ℚ → List ℚ
  | _, [] => []
  | i, x :: xs =>
      (if i < d then ramp d i * x else x) :: fadeInSamples ramp d (i + 1) xs

/-- Model of pydub `fade_in(d)`: the first `d` milliseconds are scaled
by a ramp (linear in dB in pydub; the ramp shape is a parameter). -/
def fadeIn (ramp : Nat → Nat → ℚ) (d : Nat) (s : AudioSegment) : AudioSegment :=
  ⟨s.frame_rate, s.channels, fadeInSamples ramp d 0 s.samples, s.dbfs⟩

/-- Helper for `fadeOut`: multiply the samples at distance `< d` from
the end (list length `n`) by the mirrored ramp factor. -/
def fadeOutSamples (ramp : Nat → Nat → ℚ) (d n : Nat) : Nat → List ℚ → List ℚ
  | _, [] => []
  | i, x :: xs =>
      (if n - d ≤ i then ramp d (n - 1 - i) * x else x)
        :: fadeOutSamples ramp d n (i + 1) xs

/-- Model of pydub `fade_out(d)`: the last `d` milliseconds are scaled
by the mirrored ramp. -/
def fadeOut (ramp : Nat → Nat → ℚ) (d : Nat) (s : AudioSegment) : AudioSegment :=
  ⟨s.frame_rate, s.channels, fadeOutSamples ramp d s.samples.length 0 s.samples,
    s.dbfs⟩

/-- Helper for `overlay`: pointwise sum; the second operand is truncated
to the first operand's length and missing samples contribute nothing,
exactly as pydub `overlay` keeps the receiver's length. -/
def overlaySamples : List ℚ → List ℚ → List ℚ
  | [], _ => []
  | a :: as, [] => a :: overlaySamples as []
  | a :: as, b :: bs => (a + b) :: overlaySamples as bs

/-- Model of pydub `a.overlay(b)` (position 0): sample-wise additive
overlay in the linear domain, result length equal to `a`'s. -/
def overlay (a b : AudioSegment) : AudioSegment :=
  ⟨a.frame_rate, a.channels, overlaySamples a.samples b.samples, a.dbfs⟩

end AudioSegment

/-- Error raised by the mixing engine.  The source raises a plain
`ValueError` when a mixing operation is invoked before both tracks are
loaded (the spec taxonomy's `NotLoadedError`), and a
`CalledProcessError` when the external ffmpeg re-encode of a FLAC
export fails. -/
inductive MixError where
  | notLoaded : MixError
  | subprocessFailed : MixError
deriving DecidableEq, Repr

/-- State of `AudioMixer` from `mixer_processing_legacy.py`: the two
optional in-memory tracks.  (The stored source paths are never observed
by any claim and are omitted.) -/
structure AudioMixer where
  vocal_audio : Option AudioSegment
  instrumental_audio : Option AudioSegment
deriving DecidableEq, Repr

namespace AudioMixer

/-- `check_audio_files`: raises `ValueError` (modelled `notLoaded`) when
either track is `None`; on success hands back both tracks. -/
def check_audio_files (m : AudioMixer) : Except MixError (AudioSegment × AudioSegment) :=
  match m.vocal_audio, m.instrumental_audio with
  | some v, some i => .ok (v, i)
  | _, _ => .error .notLoaded

/-- `normalize_audio(target_dBFS, instrumental_offset)`: shifts the
vocal by `target_dBFS - vocal.dBFS` and the instrumental by
`(target_dBFS + instrumental_offset) - instrumental.dBFS`. -/
def normalize_audio (dbGain : ℚ → ℚ) (target_dBFS instrumental_offset : ℚ)
    (m : AudioMixer) : Except MixError AudioMixer :=
  match m.check_audio_files with
  | .error e => .error e
  | .ok (v, i) =>
      let vocal_change := target_dBFS - v.dbfs
      let v2 := v.applyGain dbGain vocal_change
      let instrumental_target := target_dBFS + instrumental_offset
      let instrumental_change := instrumental_target - i.dbfs
      let i2 := i.applyGain dbGain instrumental_change
      .ok ⟨some v2, some i2⟩

/-- `align_durations(strategy)`: equalises the millisecond lengths of
the two tracks.  Note that in the `pad` branch the source generates the
silence at `self.vocal_audio.frame_rate`, whichever track is shorter.
An unrecognised strategy string falls through with no change, as in the
source.  (In the `loop` branch the source computes
`int(np.ceil(longer/shorter))`; a zero-length shorter track would raise
in Python — the model's natural-number formula is only ever used with
nonzero lengths by the theorems below.) -/
def align_durations (strategy : String) (m : AudioMixer) : Except MixError AudioMixer :=
  match m.check_audio_files with
  | .error e => .error e
  | .ok (v, i) =>
      let vocal_len := v.msLen
      let instrumental_len := i.msLen
      if vocal_len = instrumental_len then .ok m
      else if strategy = "trim" then
        if vocal_len > instrumental_len then
          .ok ⟨some (v.sliceTo instrumental_len), some i⟩
        else
          .ok ⟨some v, some (i.sliceTo vocal_len)⟩
      else if strategy = "loop" then
        if vocal_len > instrumental_len then
          let loops := (vocal_len + instrumental_len - 1) / instrumental_len
          .ok ⟨some v, some ((i.repeatSeg loops).sliceTo vocal_len)⟩
        else
          let loops := (instrumental_len + vocal_len - 1) / vocal_len
          .ok ⟨some ((v.repeatSeg loops).sliceTo instrumental_len), some i⟩
      else if strategy = "pad" then
        let silence := AudioSegment.silent (Nat.dist vocal_len instrumental_len)
          v.frame_rate
        if vocal_len > instrumental_len then
          .ok ⟨some v, some (i.append silence)⟩
        else
          .ok ⟨some (v.append silence), some i⟩
      else .ok m

/-- `mix_audio(vocal_volume, instrumental_volume, fade_duration)`:
checks both tracks, runs `align_durations()` with its default `trim`
strategy (mutating the stored tracks), attenuates each track by
`20 * (1 - volume)` dB, applies `fade_in_out` to each, and overlays
them.  State passing makes the mutation of `self` explicit: the result
carries the mixed segment together with the post-call mixer state. -/
def mix_audio (dbGain : ℚ → ℚ) (ramp : Nat → Nat → ℚ)
    (vocal_volume instrumental_volume : ℚ) (fade_duration : Nat)
    (m : AudioMixer) : Except MixError (AudioSegment × AudioMixer) :=
  match m.check_audio_files with
  | .error e => .error e
  | .ok _ =>
      match m.align_durations "trim" with
      | .error e => .error e
      | .ok m2 =>
          match m2.check_audio_files with
          | .error e => .error e
          | .ok (v, i) =>
              let vocal := v.applyGain dbGain (-(20 * (1 - vocal_volume)))
              let instrumental :=
                i.applyGain dbGain (-(20 * (1 - instrumental_volume)))
              let vocal2 := (vocal.fadeIn ramp fade_duration).fadeOut ramp
                fade_duration
              let instrumental2 :=
                (instrumental.fadeIn ramp fade_duration).fadeOut ramp
                  fade_duration
              let mixed := vocal2.overlay instrumental2
              .ok (mixed, m2)

end AudioMixer

/-- Split a character list on a separator, `str.split(sep)` style: the
result always has one more part than there are separators. -/
def splitChar (sep : Char) : List Char → List (List Char)
  | [] => [[]]
  | c :: t =>
      let r := splitChar sep t
      if c = sep then [] :: r
      else (c :: r.headD []) :: r.tail

/-- Last path component, as `pathlib` `Path(p).name`. -/
def pathFileName (p : String) : String :=
  String.mk ((splitChar '/' p.data).getLastD [])

/-- Extension with its leading dot, as `Path(p).suffix` (empty when the
file name has no dot or is a bare dot-file such as `.flac`). -/
def pathSuffix (p : String) : String :=
  let name := (splitChar '/' p.data).getLastD []
  let parts := splitChar '.' name
  if parts.length ≤ 1 then ""
  else if parts.headD [] = [] ∧ parts.length = 2 then ""
  else String.mk ('.' :: parts.getLastD [])

/-- File name without its extension, as `Path(p).stem`. -/
def pathStem (p : String) : String :=
  let name := (splitChar '/' p.data).getLastD []
  String.mk (name.take (name.length - (pathSuffix p).data.length))

/-- `make_name` from `toolbox/common.py`: stem of the path, plus the
stage suffix, plus the original extension (directories dropped). -/
def makeName (path suffix : String) : String :=
  pathStem path ++ suffix ++ pathSuffix path

/-- Delete a path from the filesystem model. -/
def fsDelete (fs : FS) (p : String) : FS :=
  fs.filter (fun e => e.1 != p)

namespace AudioMixer

/-- `export_mixed_audio(output_path, **mix_kwargs)`: mixes, then picks
the container from `Path(output_path).suffix[1:].lower()`.  For `flac`
the source writes an intermediate WAV to a `NamedTemporaryFile` inside
a `with` block, re-encodes it through an external `ffmpeg` call
(`check=True`, so a failing call raises `CalledProcessError`), and the
`with` block deletes the temporary file on scope exit whether or not
the call raised.  Other containers are written directly.  `tmpName` is
the fresh name the temporary-file object picks, `ffmpegOk` the outcome
of the external call; written files carry content id `0` (contents are
not observed by any theorem). -/
def export_mixed_audio (dbGain : ℚ → ℚ) (ramp : Nat → Nat → ℚ)
    (output_path tmpName : String) (ffmpegOk : Bool)
    (vocal_volume instrumental_volume : ℚ) (fade_duration : Nat)
    (m : AudioMixer) (fs : FS) : Except MixError AudioMixer × FS :=
  match m.mix_audio dbGain ramp vocal_volume instrumental_volume fade_duration with
  | .error e => (.error e, fs)
  | .ok (_, m2) =>
      let ext := String.mk (((pathSuffix output_path).data.drop 1).map Char.toLower)
      if ext = "flac" then
        let fs1 := fsPut fs tmpName 0
        if ffmpegOk then
          let fs2 := fsPut fs1 output_path 0
          (.ok m2, fsDelete fs2 tmpName)
        else
          (.error .subprocessFailed, fsDelete fs1 tmpName)
      else
        (.ok m2, fsPut fs output_path 0)

/-- `get_audio_info()`: per track, duration in seconds, channel count,
frame rate and measured loudness; raises when either track is missing. -/
def get_audio_info (m : AudioMixer) :
    Except MixError ((ℚ × Nat × Nat × ℚ) × (ℚ × Nat × Nat × ℚ)) :=
  match m.check_audio_files with
  | .error e => .error e
  | .ok (v, i) =>
      .ok (((v.msLen : ℚ) / 1000, v.channels, v.frame_rate, v.dbfs),
           ((i.msLen : ℚ) / 1000, i.channels, i.frame_rate, i.dbfs))

end AudioMixer

/-- Word character in the sense of Python's `\w` applied to the ASCII
output of `unidecode`: a letter, a digit, or an underscore. -/
def isWordChar (c : Char) : Bool :=
  c.isAlphanum || c = '_'

/-- Worker for `collapseNonWord`: the boolean records whether the
previous character belonged to a (still open) run of non-word
characters.  A word character (note that `_` IS a word character for
Python's `\w` and is therefore preserved as-is) is kept and closes any
run; a non-word character emits one `_` when it opens a run and nothing
when it extends one. -/
def collapseNonWordAux : Bool → List Char → List Char
  | _, [] => []
  | inRun, c :: t =>
      if isWordChar c then c :: collapseNonWordAux false t
      else if inRun then collapseNonWordAux true t
      else '_' :: collapseNonWordAux true t

/-- Model of `re.sub(r"[^\w]+", "_", s)` from `convert_name`: every
maximal run of non-word characters is replaced by a single underscore;
word characters — including pre-existing underscores, which `\w`
matches — are left untouched. -/
def collapseNonWord (s : List Char) : List Char :=
  collapseNonWordAux false s

/-- Strip a character from both ends of a list (`str.strip("_")`). -/
def stripChar (c : Char) (s : List Char) : List Char :=
  ((s.dropWhile (fun d => d == c)).reverse.dropWhile (fun d => d == c)).reverse

/-- Sanitised stem from `AudioConverter.convert_name`:
`unidecode(stem).lower()` (the per-character transliteration of
`unidecode` is the parameter `translit`), then non-word runs collapsed
to `_`, then underscores stripped from both ends. -/
def safeStem (translit : Char → List Char) (stem : List Char) : List Char :=
  stripChar '_' (collapseNonWord ((stem.flatMap translit).map Char.toLower))

/-- Structured path as the converter manipulates it through `pathlib`:
directory prefix (with its trailing separator), stem, and extension
(with its leading dot; possibly empty). -/
structure ConvPath where
  dir : String
  stem : String
  ext : String
deriving DecidableEq, Repr

/-- Rendered path string of a structured path. -/
def ConvPath.render (p : ConvPath) : String :=
  p.dir ++ p.stem ++ p.ext

/-- Error raised by the converter: `shutil.copy` raises when the source
file is absent. -/
inductive ConvError where
  | fileMissing : ConvError
deriving DecidableEq, Repr

/-- `AudioConverter.convert_name(input_path)`: builds the sanitised
sibling path (`with_name` keeps directory and extension), copies the
file to it when the two paths differ, and returns the sanitised path;
when they coincide nothing is copied and the original path is
returned. -/
def convert_name (translit : Char → List Char) (fs : FS)
    (input_path : ConvPath) : Except ConvError (ConvPath × FS) :=
  let safe_stem := String.mk (safeStem translit input_path.stem.data)
  let safe_path : ConvPath := ⟨input_path.dir, safe_stem, input_path.ext⟩
  if safe_path ≠ input_path then
    match fsLookup fs input_path.render with
    | none => .error .fileMissing
    | some c => .ok (safe_path, fsPut fs safe_path.render c)
  else .ok (input_path, fs)

/-- Error raised by `DemucsProcessor.separate`: the wrapped
`RuntimeError` when `demucs.separate.main` raises, the
`FileNotFoundError` when an expected stem file is absent afterwards,
and the `KeyError` from an unknown mode profile. -/
inductive DemucsError where
  | separationFailed : DemucsError
  | outputMissing : DemucsError
  | badMode : DemucsError
deriving DecidableEq, Repr

/-- `DemucsProcessor.separate(input_path, output_dir, model, mode)`:
looks the mode up in the parameter table (unknown modes raise), runs
the external separation (`runDemucs` models `demucs.separate.main`'s
effect on the filesystem), checks that both stems exist under the
model's shared default location `separated/<model>/<input stem>/`, and
copies them into `output_dir` under `<stem>-vocals.wav` and
`<stem>-instrumental.wav`.  The device selection and torch plumbing
have no filesystem-visible effect and are not modelled. -/
def DemucsProcessor.separate (runDemucs : FS → Except Unit FS)
    (input_stem output_dir model mode : String) (fs : FS) :
    Except DemucsError (String × String × FS) :=
  if mode ∈ ["standard", "vintage", "high_quality", "fast"] then
    match runDemucs fs with
    | .error _ => .error .separationFailed
    | .ok fs1 =>
        let base_dir := "separated/" ++ model ++ "/" ++ input_stem
        let vocals_path := base_dir ++ "/vocals.wav"
        let no_vocals_path := base_dir ++ "/no_vocals.wav"
        match fsLookup fs1 vocals_path, fsLookup fs1 no_vocals_path with
        | some cv, some cn =>
            let final_vocals := output_dir ++ "/" ++ input_stem ++ "-vocals.wav"
            let final_instr :=
              output_dir ++ "/" ++ input_stem ++ "-instrumental.wav"
            .ok (final_vocals, final_instr,
              fsPut (fsPut fs1 final_vocals cv) final_instr cn)
        | _, _ => .error .outputMissing
  else .error .badMode

/-- Body of `AudioRestorer._process_vinyl`: the ffmpeg filter chain is
attempted; an `ffmpeg.Error` is caught and the Python-only fallback is
run instead; a failing fallback lets its exception escape. -/
def processVinyl (ffmpegOk fallbackOk : Bool) : Except Unit Unit :=
  if ffmpegOk then .ok ()
  else if fallbackOk then .ok ()
  else .error ()

/-- `AudioRestorer.restore(input_path, output_path)` in the `vinyl`
mode the pipeline uses: the whole body sits in a `try` whose `except`
logs and returns `False` — restore signals failure by its boolean
return value and never lets an exception escape.  The output file is
written exactly when the result is `true`. -/
def AudioRestorer.restore (ffmpegOk fallbackOk : Bool) : Bool :=
  match processVinyl ffmpegOk fallbackOk with
  | .ok _ => true
  | .error _ => false

/-- Outcomes of the external collaborators for one orchestrator run:
whether the name-copy plus WAV transcode succeeds, whether each
denoising pass's ffmpeg chain and fallback succeed, whether demucs,
the enhancement collaborator, and the mastering chain succeed. -/
structure World where
  convertOk : Bool
  ffmpegPreOk : Bool
  fallbackPreOk : Bool
  demucsOk : Bool
  enhanceOk : Bool
  ffmpegPostOk : Bool
  fallbackPostOk : Bool
  masterOk : Bool
deriving DecidableEq, Repr

/-- `pipeline.run(input_path, nfs_dir, uuid)`.  The result is the
returned integer code (`0` from the success path, `1` from the
top-level `except`) paired with the list of stage indices whose body
began executing (mirroring the source's per-step logging).  Stage
semantics, from the source: the converter raises on failure; the two
denoising passes return a boolean that the orchestrator ignores
(`AudioRestorer.restore` catches its own errors); the separation stage
raises when demucs fails or when its input file is missing — which is
the case when the preceding denoise pass failed; the enhancement
collaborator raises on failure (modelled from the spec contract, since
the imported `fixer_processing` module is not part of the sources:
`signals failure if the output file is absent after the call`); the
mastering stage raises when its vocal input file is missing — the case
when the post denoise failed — or when the mixing/export chain fails. -/
def pipelineRun (translit : Char → List Char) (input_path : ConvPath)
    (nfs_dir : String) (uuid : Nat) (w : World) : Nat × List Nat :=
  let work_dir := nfs_dir ++ toString uuid ++ "/"
  if ¬ w.convertOk then (1, [0]) else
  let s_stem := String.mk (safeStem translit input_path.stem.data)
  let audio_path := input_path.dir ++ s_stem ++ ".wav"
  let denoised_written := AudioRestorer.restore w.ffmpegPreOk w.fallbackPreOk
  let denoised_path := work_dir ++ makeName audio_path "-denoised"
  if ¬ (denoised_written && w.demucsOk) then (1, [0, 1, 2]) else
  let vocals := work_dir ++ pathStem denoised_path ++ "-vocals.wav"
  let enhanced_vocal_path := work_dir ++ makeName vocals "-enhanced"
  if ¬ w.enhanceOk then (1, [0, 1, 2, 3]) else
  let final_written := AudioRestorer.restore w.ffmpegPostOk w.fallbackPostOk
  let final_vocal_path := work_dir ++ makeName enhanced_vocal_path "-final"
  let _ := final_vocal_path
  if ¬ (final_written && w.masterOk) then (1, [0, 1, 2, 3, 4, 5]) else
  (0, [0, 1, 2, 3, 4, 5])

/-- Path of the final mastered artifact the MASTER stage exports:
`work_dir + make_name(audio_path, "-improved-mastered")`, with
`audio_path` the sanitised input transcoded to `.wav` alongside the
original. -/
def finalMasteredPath (translit : Char → List Char) (input_path : ConvPath)
    (nfs_dir : String) (uuid : Nat) : String :=
  let work_dir := nfs_dir ++ toString uuid ++ "/"
  let s_stem := String.mk (safeStem translit input_path.stem.data)
  let audio_path := input_path.dir ++ s_stem ++ ".wav"
  work_dir ++ makeName audio_path "-improved-mastered"

/-- The mixed segment `mix_audio` produces from the two (already
`trim`-aligned) tracks: each track attenuated by `20 * (1 - volume)` dB,
faded in and out over `fade_duration`, then additively overlaid. -/
def mixedOf (dbGain : ℚ → ℚ) (ramp : Nat → Nat → ℚ)
    (vocal_volume instrumental_volume : ℚ) (fade_duration : Nat)
    (v2 i2 : AudioSegment) : AudioSegment :=
  (((v2.applyGain dbGain (-(20 * (1 - vocal_volume)))).fadeIn ramp
      fade_duration).fadeOut ramp fade_duration).overlay
    (((i2.applyGain dbGain (-(20 * (1 - instrumental_volume)))).fadeIn ramp
        fade_duration).fadeOut ramp fade_duration)

/-- Safe canonical form of a file name as the specification words it.
Modelled from the spec: `safe canonical form (ASCII, lowercase,
non-alphanumeric runs collapsed to a separator)` — every character is
ASCII and not an uppercase letter, and no two adjacent characters are
both non-alphanumeric.  This is the claim's reading of the canonical
form over the whole file name, used to compare the claim against the
source's stem-only sanitisation. -/
def noAdjacentNonAlnum : List Char → Bool
  | [] => true
  | [_] => true
  | a :: b :: t =>
      !(!a.isAlphanum && !b.isAlphanum) && noAdjacentNonAlnum (b :: t)

/-- See `noAdjacentNonAlnum`; the full spec-side safe-name predicate. -/
def specSafeName (name : List Char) : Bool :=
  name.all (fun c => decide (c.toNat ≤ 127) && !c.isUpper) && noAdjacentNonAlnum name

/- ======================================================================
   Helper lemmas shared by the claim theorems
   ====================================================================== -/

/-- A mixer with a missing track fails its `check_audio_files`. -/
theorem check_audio_files_error (m : AudioMixer)
    (h : m.vocal_audio = none ∨ m.instrumental_audio = none) :
    m.check_audio_files = .error .notLoaded := by
  unfold AudioMixer.check_audio_files
  rcases h with h | h
  · rw [h]
  · rw [h]
    cases m.vocal_audio <;> rfl

/-- A mixer with both tracks loaded passes its `check_audio_files`. -/
theorem check_audio_files_ok (m : AudioMixer) (v i : AudioSegment)
    (hv : m.vocal_audio = some v) (hi : m.instrumental_audio = some i) :
    m.check_audio_files = .ok (v, i) := by
  unfold AudioMixer.check_audio_files
  rw [hv, hi]

/-- Deleting a path from the filesystem model removes every binding. -/
theorem fsLookup_fsDelete (fs : FS) (p : String) :
    fsLookup (fsDelete fs p) p = none := by
  induction fs with
  | nil => rfl
  | cons e t ih =>
      by_cases h : e.1 = p
      · simp only [fsDelete, List.filter] at *
        rw [show (e.1 != p) = false by simp [h]]
        exact ih
      · simp only [fsDelete, List.filter] at *
        rw [show (e.1 != p) = true by simp [h]]
        simp only [fsLookup, List.lookup] at *
        rw [show (p == e.1) = false by simp [Ne.symm h]]
        exact ih

/-- Deleting a path from the filesystem model really removes it. -/
theorem fsHas_fsDelete (fs : FS) (p : String) :
    fsHas (fsDelete fs p) p = false := by
  simp [fsHas, fsLookup_fsDelete]

/-- Pointwise description of the additive overlay: at every index below
the first operand's length, the overlay is the sum of the two samples
(a missing second sample contributes nothing). -/
theorem overlaySamples_getD (as : List ℚ) (bs : List ℚ) (k : Nat)
    (hk : k < as.length) :
    (AudioSegment.overlaySamples as bs).getD k 0 = as.getD k 0 + bs.getD k 0 := by
  induction as generalizing bs k with
  | nil => simp at hk
  | cons a t ih =>
      cases bs with
      | nil =>
          cases k with
          | zero => simp [AudioSegment.overlaySamples]
          | succ n =>
              have hn : n < t.length := Nat.lt_of_succ_lt_succ hk
              simpa [AudioSegment.overlaySamples] using ih [] n hn
      | cons b bt =>
          cases k with
          | zero => simp [AudioSegment.overlaySamples]
          | succ n =>
              have hn : n < t.length := Nat.lt_of_succ_lt_succ hk
              simpa [AudioSegment.overlaySamples] using ih bt n hn

/- ======================================================================
   C4 — NotLoadedError on operations with a missing track
   ====================================================================== -/

/-- C4: every mixing-engine operation that requires both tracks —
`normalize_audio`, `align_durations`, `mix_audio` and
`get_audio_info` — fails with the not-loaded error (the `ValueError`
raised by `check_audio_files`, the spec taxonomy's `NotLoadedError`)
whenever either the vocal or the instrumental track has not been
loaded. -/
theorem c4_ops_fail_when_not_loaded (dbGain : ℚ → ℚ) (ramp : Nat → Nat → ℚ)
    (m : AudioMixer) (target offset vv iv : ℚ) (fd : Nat) (strategy : String)
    (h : m.vocal_audio = none ∨ m.instrumental_audio = none) :
    m.normalize_audio dbGain target offset = .error .notLoaded ∧
    m.align_durations strategy = .error .notLoaded ∧
    m.mix_audio dbGain ramp vv iv fd = .error .notLoaded ∧
    m.get_audio_info = .error .notLoaded := by
  have hc := check_audio_files_error m h
  refine ⟨?_, ?_, ?_, ?_⟩
  · unfold AudioMixer.normalize_audio
    rw [hc]
  · unfold AudioMixer.align_durations
    rw [hc]
  · unfold AudioMixer.mix_audio
    rw [hc]
  · unfold AudioMixer.get_audio_info
    rw [hc]

/-- C4 witness: a mixer holding only an instrumental track is rejected
by all four operations. -/
theorem c4_ops_fail_when_not_loaded_witness :
    (AudioMixer.normalize_audio (fun _ => 1) (-18) (-5/2)
        ⟨none, some ⟨44100, 1, [1], -12⟩⟩ = .error .notLoaded) ∧
    (AudioMixer.align_durations "pad" ⟨none, some ⟨44100, 1, [1], -12⟩⟩
        = .error .notLoaded) ∧
    (AudioMixer.mix_audio (fun _ => 1) (fun _ _ => 1) 1 1 0
        ⟨none, some ⟨44100, 1, [1], -12⟩⟩ = .error .notLoaded) ∧
    (AudioMixer.get_audio_info ⟨none, some ⟨44100, 1, [1], -12⟩⟩
        = .error .notLoaded) :=
  c4_ops_fail_when_not_loaded (fun _ => 1) (fun _ _ => 1)
    ⟨none, some ⟨44100, 1, [1], -12⟩⟩ (-18) (-5/2) 1 1 0 "pad" (Or.inl rfl)

/- ======================================================================
   C6 — normalize brings the vocal to target and the instrumental to
   target + offset
   ====================================================================== -/

/-- C6: with both tracks loaded, `normalize_audio` applies to the vocal
exactly the gain delta `target_dBFS - vocal.dBFS` and to the
instrumental the delta `(target_dBFS + instrumental_offset) -
instrumental.dBFS`, so that afterwards the vocal's measured loudness is
`target_dBFS` and the instrumental's is
`target_dBFS + instrumental_offset` (exactly, in the ideal-arithmetic
loudness model). -/
theorem c6_normalize_reaches_targets (dbGain : ℚ → ℚ)
    (target offset : ℚ) (m : AudioMixer) (v i : AudioSegment)
    (hv : m.vocal_audio = some v) (hi : m.instrumental_audio = some i) :
    m.normalize_audio dbGain target offset =
      .ok ⟨some (v.applyGain dbGain (target - v.dbfs)),
           some (i.applyGain dbGain (target + offset - i.dbfs))⟩ ∧
    (v.applyGain dbGain (target - v.dbfs)).dbfs = target ∧
    (i.applyGain dbGain (target + offset - i.dbfs)).dbfs = target + offset := by
  have hc := check_audio_files_ok m v i hv hi
  refine ⟨?_, ?_, ?_⟩
  · unfold AudioMixer.normalize_audio
    rw [hc]
  · simp [AudioSegment.applyGain]
  · simp [AudioSegment.applyGain]

/-- C6 witness, the spec's scenario: vocal at −30 dBFS and
instrumental at −12 dBFS, `normalize(target=-18, offset=-2.5)` leaves
the vocal at −18 dBFS and the instrumental at −20.5 dBFS. -/
theorem c6_normalize_reaches_targets_witness :
    (AudioMixer.normalize_audio (fun _ => 1) (-18) (-5/2)
        ⟨some ⟨44100, 2, [1, 2], -30⟩, some ⟨44100, 2, [3], -12⟩⟩ =
      .ok ⟨some ((⟨44100, 2, [1, 2], -30⟩ : AudioSegment).applyGain
              (fun _ => 1) ((-18) - (-30 : ℚ))),
           some ((⟨44100, 2, [3], -12⟩ : AudioSegment).applyGain
              (fun _ => 1) ((-18) + (-5/2) - (-12 : ℚ)))⟩) ∧
    ((⟨44100, 2, [1, 2], -30⟩ : AudioSegment).applyGain
        (fun _ => 1) ((-18) - (-30 : ℚ))).dbfs = -18 ∧
    ((⟨44100, 2, [3], -12⟩ : AudioSegment).applyGain
        (fun _ => 1) ((-18) + (-5/2) - (-12 : ℚ))).dbfs = (-18) + (-5/2) :=
  c6_normalize_reaches_targets (fun _ => 1) (-18) (-5/2)
    ⟨some ⟨44100, 2, [1, 2], -30⟩, some ⟨44100, 2, [3], -12⟩⟩
    ⟨44100, 2, [1, 2], -30⟩ ⟨44100, 2, [3], -12⟩ rfl rfl

/- ======================================================================
   C3 — align(pad) and the frame rate of the generated silence
   ====================================================================== -/

/-- C3 counterexample: with a 2 ms vocal at 44100 Hz and a shorter 1 ms
instrumental at 22050 Hz, `align_durations "pad"` appends silence
generated at the VOCAL's frame rate: the padded instrumental comes back
synchronised to 44100 Hz, not to the shorter track's own 22050 Hz as
the claim states (had the silence been generated at the shorter
track's rate, the padded track would still be at 22050 Hz). -/
theorem c3_pad_counterexample :
    AudioMixer.align_durations "pad"
        ⟨some ⟨44100, 2, [1, 2], -30⟩, some ⟨22050, 1, [3], -12⟩⟩
      = .ok ⟨some ⟨44100, 2, [1, 2], -30⟩, some ⟨44100, 1, [3, 0], -12⟩⟩ ∧
    (22050 : Nat) ≠ 44100 := by
  constructor
  · decide
  · decide

/-- C3 amended: `align_durations "pad"` pads the shorter track with
trailing silence generated at the VOCAL track's frame rate (not the
shorter track's own rate); both tracks end at exactly the longer
track's length, each track's original samples are an unmodified prefix
of its result, and the longer track is untouched.  When the vocal is
the shorter track the two readings agree (the padded vocal keeps the
vocal's rate); when the instrumental is the shorter track the padded
instrumental is synchronised up to the vocal's rate. -/
theorem c3_pad_amended (m : AudioMixer) (v i : AudioSegment)
    (hv : m.vocal_audio = some v) (hi : m.instrumental_audio = some i)
    (hne : v.msLen ≠ i.msLen) :
    ∃ v2 i2, m.align_durations "pad" = .ok ⟨some v2, some i2⟩ ∧
      v2.msLen = max v.msLen i.msLen ∧
      i2.msLen = max v.msLen i.msLen ∧
      v2.samples.take v.msLen = v.samples ∧
      i2.samples.take i.msLen = i.samples ∧
      (i.msLen < v.msLen → v2 = v ∧
        i2.frame_rate = max i.frame_rate v.frame_rate) ∧
      (v.msLen < i.msLen → i2 = i ∧ v2.frame_rate = v.frame_rate) := by
  have hc := check_audio_files_ok m v i hv hi
  unfold AudioMixer.align_durations
  rw [hc]
  simp only []
  rw [if_neg hne, if_neg (by decide : ¬ ("pad" = "trim")),
    if_neg (by decide : ¬ ("pad" = "loop")), if_pos trivial]
  by_cases hvi : v.msLen > i.msLen
  · rw [if_pos hvi]
    refine ⟨v, i.append (AudioSegment.silent (Nat.dist v.msLen i.msLen)
      v.frame_rate), rfl, ?_, ?_, ?_, ?_, ?_, ?_⟩
    · have := Nat.max_eq_left (Nat.le_of_lt hvi)
      omega
    · simp only [AudioSegment.msLen, AudioSegment.append, AudioSegment.silent,
        List.length_append, List.length_replicate, Nat.dist]
      simp only [AudioSegment.msLen] at hvi
      omega
    · exact List.take_length v.samples
    · simpa [AudioSegment.append, AudioSegment.silent, AudioSegment.msLen]
        using List.take_left i.samples
          (List.replicate (Nat.dist v.msLen i.msLen) (0 : ℚ))
    · exact fun _ => ⟨rfl, by simp [AudioSegment.append, AudioSegment.silent]⟩
    · intro hcon
      omega
  · have hlt : v.msLen < i.msLen := by omega
    rw [if_neg hvi]
    refine ⟨v.append (AudioSegment.silent (Nat.dist v.msLen i.msLen)
      v.frame_rate), i, rfl, ?_, ?_, ?_, ?_, ?_, ?_⟩
    · simp only [AudioSegment.msLen, AudioSegment.append, AudioSegment.silent,
        List.length_append, List.length_replicate, Nat.dist]
      simp only [AudioSegment.msLen] at hlt
      omega
    · have := Nat.max_eq_right (Nat.le_of_lt hlt)
      omega
    · simpa [AudioSegment.append, AudioSegment.silent, AudioSegment.msLen]
        using List.take_left v.samples
          (List.replicate (Nat.dist v.msLen i.msLen) (0 : ℚ))
    · exact List.take_length i.samples
    · intro hcon
      omega
    · exact fun _ => ⟨rfl, by simp [AudioSegment.append, AudioSegment.silent]⟩

/-- C3 amended witness: the counterexample mixer, instantiating the
amended pad theorem at a concrete input. -/
theorem c3_pad_amended_witness :
    ∃ v2 i2,
      AudioMixer.align_durations "pad"
          ⟨some ⟨44100, 2, [1, 2], -30⟩, some ⟨22050, 1, [3], -12⟩⟩
        = .ok ⟨some v2, some i2⟩ ∧
      v2.msLen = max (AudioSegment.msLen ⟨44100, 2, [1, 2], -30⟩)
        (AudioSegment.msLen ⟨22050, 1, [3], -12⟩) ∧
      i2.msLen = max (AudioSegment.msLen ⟨44100, 2, [1, 2], -30⟩)
        (AudioSegment.msLen ⟨22050, 1, [3], -12⟩) ∧
      v2.samples.take (AudioSegment.msLen ⟨44100, 2, [1, 2], -30⟩)
        = [1, 2] ∧
      i2.samples.take (AudioSegment.msLen ⟨22050, 1, [3], -12⟩) = [3] ∧
      (AudioSegment.msLen ⟨22050, 1, [3], -12⟩
          < AudioSegment.msLen ⟨44100, 2, [1, 2], -30⟩ →
        v2 = ⟨44100, 2, [1, 2], -30⟩ ∧ i2.frame_rate = max 22050 44100) ∧
      (AudioSegment.msLen ⟨44100, 2, [1, 2], -30⟩
          < AudioSegment.msLen ⟨22050, 1, [3], -12⟩ →
        i2 = ⟨22050, 1, [3], -12⟩ ∧ v2.frame_rate = 44100) :=
  c3_pad_amended ⟨some ⟨44100, 2, [1, 2], -30⟩, some ⟨22050, 1, [3], -12⟩⟩
    ⟨44100, 2, [1, 2], -30⟩ ⟨22050, 1, [3], -12⟩ rfl rfl (by decide)

/- ======================================================================
   C9 — mix and the engine's stored tracks
   ====================================================================== -/

/-- With both tracks loaded, `align_durations "trim"` succeeds and its
result is the mixer unchanged (equal lengths) or with the longer track
sliced down to the shorter length. -/
theorem align_trim_of_loaded (m : AudioMixer) (v i : AudioSegment)
    (hv : m.vocal_audio = some v) (hi : m.instrumental_audio = some i) :
    m.align_durations "trim" =
      .ok (if v.msLen = i.msLen then m
        else if v.msLen > i.msLen then ⟨some (v.sliceTo i.msLen), some i⟩
        else ⟨some v, some (i.sliceTo v.msLen)⟩) := by
  have hc := check_audio_files_ok m v i hv hi
  unfold AudioMixer.align_durations
  rw [hc]
  simp only []
  by_cases h1 : v.msLen = i.msLen
  · rw [if_pos h1, if_pos h1]
  · rw [if_neg h1, if_neg h1, if_pos trivial]
    by_cases h2 : v.msLen > i.msLen
    · rw [if_pos h2, if_pos h2]
    · rw [if_neg h2, if_neg h2]

/-- C9 counterexample: a mixer whose vocal (2 ms) is longer than its
instrumental (1 ms).  `mix_audio` returns the mixed track, but the
post-call engine state differs from the pre-call state: the internal
`align_durations()` call (default `trim` strategy) replaced the stored
vocal `[1, 2]` by its trimmed version `[1]` — the stored tracks are NOT
unchanged from their state before the call. -/
theorem c9_mix_mutates_counterexample :
    AudioMixer.mix_audio (fun _ => 1) (fun _ _ => 1) 1 1 0
        ⟨some ⟨44100, 2, [1, 2], -30⟩, some ⟨22050, 1, [3], -12⟩⟩
      = .ok (⟨44100, 2, [4], -30⟩,
          ⟨some ⟨44100, 2, [1], -30⟩, some ⟨22050, 1, [3], -12⟩⟩) ∧
    (⟨some ⟨44100, 2, [1], -30⟩, some ⟨22050, 1, [3], -12⟩⟩ : AudioMixer)
      ≠ ⟨some ⟨44100, 2, [1, 2], -30⟩, some ⟨22050, 1, [3], -12⟩⟩ := by
  constructor
  · simp [AudioMixer.mix_audio, AudioMixer.check_audio_files,
      AudioMixer.align_durations, AudioSegment.applyGain, AudioSegment.fadeIn,
      AudioSegment.fadeOut, AudioSegment.overlay, AudioSegment.msLen,
      AudioSegment.sliceTo, AudioSegment.fadeInSamples,
      AudioSegment.fadeOutSamples, AudioSegment.overlaySamples]
    norm_num [AudioSegment.fadeOutSamples, AudioSegment.overlaySamples]
  · decide

/-- With both tracks loaded, `mix_audio` returns exactly the
attenuate-fade-overlay of the `trim`-aligned tracks, paired with the
`trim`-aligned mixer state. -/
theorem mix_audio_of_loaded (dbGain : ℚ → ℚ) (ramp : Nat → Nat → ℚ)
    (vv iv : ℚ) (fd : Nat) (m : AudioMixer) (v i : AudioSegment)
    (m2 : AudioMixer) (v2 i2 : AudioSegment)
    (hv : m.vocal_audio = some v) (hi : m.instrumental_audio = some i)
    (halign : m.align_durations "trim" = .ok m2)
    (hv2 : m2.vocal_audio = some v2) (hi2 : m2.instrumental_audio = some i2) :
    m.mix_audio dbGain ramp vv iv fd = .ok (mixedOf dbGain ramp vv iv fd v2 i2, m2) := by
  have hc := check_audio_files_ok m v i hv hi
  have hc2 := check_audio_files_ok m2 v2 i2 hv2 hi2
  unfold AudioMixer.mix_audio
  rw [hc, halign]
  simp only []
  rw [hc2]
  rfl

/-- C9 amended: `mix_audio` returns the mixed track and mutates the
engine's stored tracks only through its internal `align_durations`
(default `trim`) call: the post-call state is exactly the `trim`-align
result, and in particular when the two stored tracks already have equal
length the stored state is unchanged by `mix_audio`. -/
theorem c9_mix_state_amended (dbGain : ℚ → ℚ) (ramp : Nat → Nat → ℚ)
    (vv iv : ℚ) (fd : Nat) (m : AudioMixer) (v i : AudioSegment)
    (hv : m.vocal_audio = some v) (hi : m.instrumental_audio = some i) :
    ∃ mixed m2, m.mix_audio dbGain ramp vv iv fd = .ok (mixed, m2) ∧
      m.align_durations "trim" = .ok m2 ∧
      (v.msLen = i.msLen → m2 = m) := by
  have halign := align_trim_of_loaded m v i hv hi
  by_cases h1 : v.msLen = i.msLen
  · rw [if_pos h1] at halign
    exact ⟨mixedOf dbGain ramp vv iv fd v i, m,
      mix_audio_of_loaded dbGain ramp vv iv fd m v i m v i hv hi halign hv hi,
      halign, fun _ => rfl⟩
  · rw [if_neg h1] at halign
    by_cases h2 : v.msLen > i.msLen
    · rw [if_pos h2] at halign
      exact ⟨mixedOf dbGain ramp vv iv fd (v.sliceTo i.msLen) i,
        ⟨some (v.sliceTo i.msLen), some i⟩,
        mix_audio_of_loaded dbGain ramp vv iv fd m v i _ _ _ hv hi halign rfl rfl,
        halign, fun hEq => absurd hEq h1⟩
    · rw [if_neg h2] at halign
      exact ⟨mixedOf dbGain ramp vv iv fd v (i.sliceTo v.msLen),
        ⟨some v, some (i.sliceTo v.msLen)⟩,
        mix_audio_of_loaded dbGain ramp vv iv fd m v i _ _ _ hv hi halign rfl rfl,
        halign, fun hEq => absurd hEq h1⟩

/-- C9 amended witness: a mixer with equal-length tracks comes back
from `mix_audio` with its stored state intact. -/
theorem c9_mix_state_amended_witness :
    ∃ mixed m2,
      AudioMixer.mix_audio (fun _ => 1) (fun _ _ => 1) 1 1 0
          ⟨some ⟨44100, 2, [1, 2], -30⟩, some ⟨22050, 1, [5, 7], -12⟩⟩
        = .ok (mixed, m2) ∧
      AudioMixer.align_durations "trim"
          ⟨some ⟨44100, 2, [1, 2], -30⟩, some ⟨22050, 1, [5, 7], -12⟩⟩
        = .ok m2 ∧
      (AudioSegment.msLen ⟨44100, 2, [1, 2], -30⟩
          = AudioSegment.msLen ⟨22050, 1, [5, 7], -12⟩ →
        m2 = ⟨some ⟨44100, 2, [1, 2], -30⟩, some ⟨22050, 1, [5, 7], -12⟩⟩) :=
  c9_mix_state_amended (fun _ => 1) (fun _ _ => 1) 1 1 0
    ⟨some ⟨44100, 2, [1, 2], -30⟩, some ⟨22050, 1, [5, 7], -12⟩⟩
    ⟨44100, 2, [1, 2], -30⟩ ⟨22050, 1, [5, 7], -12⟩ rfl rfl

/- ======================================================================
   C7 — structure of mix(vocal_volume, instrumental_volume, fade)
   ====================================================================== -/

/-- C7: with both tracks loaded, `mix_audio` first runs the internal
`align_durations` (default `trim`; a no-op when the durations already
match), then returns exactly the sample-wise additive overlay of the
two aligned tracks, each attenuated by `20 * (1 - volume)` dB (a fixed
20 dB range, so volume 1 gives 0 dB attenuation — conjunct two: with
the true `10^(0/20) = 1` zero-gain factor, a volume-1 track is
unchanged by the attenuation) and each faded in and out symmetrically
over `fade_duration` — conjunct three spells out that the overlay is
pointwise additive. -/
theorem c7_mix_is_attenuate_fade_overlay (dbGain : ℚ → ℚ)
    (ramp : Nat → Nat → ℚ) (vv iv : ℚ) (fd : Nat) (m : AudioMixer)
    (v i : AudioSegment) (m2 : AudioMixer) (v2 i2 : AudioSegment)
    (hv : m.vocal_audio = some v) (hi : m.instrumental_audio = some i)
    (halign : m.align_durations "trim" = .ok m2)
    (hv2 : m2.vocal_audio = some v2) (hi2 : m2.instrumental_audio = some i2) :
    m.mix_audio dbGain ramp vv iv fd =
      .ok ((((v2.applyGain dbGain (-(20 * (1 - vv)))).fadeIn ramp
          fd).fadeOut ramp fd).overlay
        (((i2.applyGain dbGain (-(20 * (1 - iv)))).fadeIn ramp
            fd).fadeOut ramp fd), m2) ∧
    (dbGain 0 = 1 → v2.applyGain dbGain (-(20 * (1 - 1))) = v2) ∧
    (∀ a b : AudioSegment, ∀ k, k < a.samples.length →
      (a.overlay b).samples.getD k 0
        = a.samples.getD k 0 + b.samples.getD k 0) := by
  refine ⟨?_, ?_, ?_⟩
  · exact mix_audio_of_loaded dbGain ramp vv iv fd m v i m2 v2 i2 hv hi
      halign hv2 hi2
  · intro hg
    have h0 : (-(20 * ((1 : ℚ) - 1))) = 0 := by norm_num
    rw [h0]
    unfold AudioSegment.applyGain
    rw [hg]
    cases v2 with
    | mk fr ch ss db => simp
  · exact fun a b k hk => overlaySamples_getD a.samples b.samples k hk

/-- C7 witness: the concrete mixer with a 2 ms vocal and a 1 ms
instrumental, mixed at full volumes with no fade. -/
theorem c7_mix_is_attenuate_fade_overlay_witness :
    (AudioMixer.mix_audio (fun _ => 1) (fun _ _ => 1) 1 1 0
        ⟨some ⟨44100, 2, [1, 2], -30⟩, some ⟨22050, 1, [3], -12⟩⟩ =
      .ok (((((⟨44100, 2, [1], -30⟩ : AudioSegment).applyGain (fun _ => 1)
            (-(20 * (1 - 1)))).fadeIn (fun _ _ => 1) 0).fadeOut
              (fun _ _ => 1) 0).overlay
          ((((⟨22050, 1, [3], -12⟩ : AudioSegment).applyGain (fun _ => 1)
              (-(20 * (1 - 1)))).fadeIn (fun _ _ => 1) 0).fadeOut
                (fun _ _ => 1) 0),
        ⟨some ⟨44100, 2, [1], -30⟩, some ⟨22050, 1, [3], -12⟩⟩)) ∧
    ((fun _ => (1 : ℚ)) 0 = 1 →
      (⟨44100, 2, [1], -30⟩ : AudioSegment).applyGain (fun _ => 1)
        (-(20 * (1 - 1))) = ⟨44100, 2, [1], -30⟩) ∧
    (∀ a b : AudioSegment, ∀ k, k < a.samples.length →
      (a.overlay b).samples.getD k 0
        = a.samples.getD k 0 + b.samples.getD k 0) :=
  c7_mix_is_attenuate_fade_overlay (fun _ => 1) (fun _ _ => 1) 1 1 0
    ⟨some ⟨44100, 2, [1, 2], -30⟩, some ⟨22050, 1, [3], -12⟩⟩
    ⟨44100, 2, [1, 2], -30⟩ ⟨22050, 1, [3], -12⟩
    ⟨some ⟨44100, 2, [1], -30⟩, some ⟨22050, 1, [3], -12⟩⟩
    ⟨44100, 2, [1], -30⟩ ⟨22050, 1, [3], -12⟩
    rfl rfl (by decide) rfl rfl

/- ======================================================================
   C5 — FLAC export never leaves the temporary WAV behind
   ====================================================================== -/

/-- C5: exporting to the compressed lossless container (extension
`flac`), the intermediate uncompressed temporary file is gone from the
filesystem when `export_mixed_audio` returns — both when the external
re-encode succeeds and when it raises (second conjunct: with the mix
computed and the re-encode failing, the export really does surface the
subprocess error, i.e. the cleanup covers the raising path). -/
theorem c5_flac_export_cleans_temp (dbGain : ℚ → ℚ) (ramp : Nat → Nat → ℚ)
    (out tmp : String) (ffmpegOk : Bool) (vv iv : ℚ) (fd : Nat)
    (m : AudioMixer) (fs : FS)
    (hext : String.mk (((pathSuffix out).data.drop 1).map Char.toLower)
      = "flac")
    (hfresh : fsHas fs tmp = false) :
    fsHas (m.export_mixed_audio dbGain ramp out tmp ffmpegOk vv iv fd fs).2
      tmp = false ∧
    (∀ r m2, m.mix_audio dbGain ramp vv iv fd = .ok (r, m2) →
      ffmpegOk = false →
      (m.export_mixed_audio dbGain ramp out tmp ffmpegOk vv iv fd fs).1
        = .error .subprocessFailed) := by
  unfold AudioMixer.export_mixed_audio
  cases hmix : m.mix_audio dbGain ramp vv iv fd with
  | error e =>
      refine ⟨hfresh, ?_⟩
      intro r m2 hok
      cases hok
  | ok p =>
      cases p with
      | mk r0 m20 =>
          simp only []
          rw [if_pos hext]
          cases ffmpegOk with
          | true =>
              refine ⟨fsHas_fsDelete _ tmp, ?_⟩
              intro r m2 _ hcon
              cases hcon
          | false =>
              exact ⟨fsHas_fsDelete _ tmp, fun r m2 _ _ => rfl⟩

/-- C5 witness: a concrete FLAC export over a loaded mixer with the
external re-encode failing; the temporary WAV is absent afterwards and
the failure surfaces. -/
theorem c5_flac_export_cleans_temp_witness :
    fsHas (AudioMixer.export_mixed_audio (fun _ => 1) (fun _ _ => 1)
        "mix.flac" "tmpa.wav" false 1 1 0
        ⟨some ⟨44100, 2, [1], -30⟩, some ⟨22050, 1, [3], -12⟩⟩
        [("x.wav", 1)]).2 "tmpa.wav" = false ∧
    (∀ r m2, AudioMixer.mix_audio (fun _ => 1) (fun _ _ => 1) 1 1 0
        ⟨some ⟨44100, 2, [1], -30⟩, some ⟨22050, 1, [3], -12⟩⟩
        = .ok (r, m2) →
      false = false →
      (AudioMixer.export_mixed_audio (fun _ => 1) (fun _ _ => 1)
        "mix.flac" "tmpa.wav" false 1 1 0
        ⟨some ⟨44100, 2, [1], -30⟩, some ⟨22050, 1, [3], -12⟩⟩
        [("x.wav", 1)]).1 = .error .subprocessFailed) :=
  c5_flac_export_cleans_temp (fun _ => 1) (fun _ _ => 1) "mix.flac"
    "tmpa.wav" false 1 1 0
    ⟨some ⟨44100, 2, [1], -30⟩, some ⟨22050, 1, [3], -12⟩⟩
    [("x.wav", 1)] (by decide) (by decide)

/- ======================================================================
   C8 — convert_name: stem sanitisation and the duplicate copy
   ====================================================================== -/

/-- C8 counterexample: the file name `song.MP3` is not in the claimed
safe canonical form (its extension has uppercase letters), yet
`convert_name` makes no copy and returns the original path unchanged:
the source sanitises only the STEM (`Path(...).stem`), so a path whose
stem is already sanitised is returned as-is regardless of its
extension.  (`unidecode` is the identity on this ASCII input.) -/
theorem c8_convert_name_counterexample :
    specSafeName ("song.MP3" : String).data = false ∧
    convert_name (fun c => [c]) [("d/song.MP3", 7)] ⟨"d/", "song", ".MP3"⟩
      = .ok (⟨"d/", "song", ".MP3"⟩, [("d/song.MP3", 7)]) := by
  refine ⟨by decide, by decide⟩

/-- C8 amended: `convert_name` sanitises the stem only.  If the
sanitised stem equals the original stem, no copy is made and the
original path is returned with the filesystem unchanged; if it differs,
the file is duplicated under the sanitised stem (same directory, same
extension), the original file still holds its old content, and no other
path is touched. -/
theorem c8_convert_name_amended (translit : Char → List Char) (fs : FS)
    (p : ConvPath) (c : Nat) (hfile : fsLookup fs p.render = some c) :
    (String.mk (safeStem translit p.stem.data) = p.stem →
      convert_name translit fs p = .ok (p, fs)) ∧
    (String.mk (safeStem translit p.stem.data) ≠ p.stem →
      convert_name translit fs p =
        .ok (⟨p.dir, String.mk (safeStem translit p.stem.data), p.ext⟩,
          fsPut fs
            (ConvPath.render
              ⟨p.dir, String.mk (safeStem translit p.stem.data), p.ext⟩) c) ∧
      fsLookup
        (fsPut fs
          (ConvPath.render
            ⟨p.dir, String.mk (safeStem translit p.stem.data), p.ext⟩) c)
        p.render = some c ∧
      (∀ q : String,
        q ≠ ConvPath.render
          ⟨p.dir, String.mk (safeStem translit p.stem.data), p.ext⟩ →
        fsLookup
          (fsPut fs
            (ConvPath.render
              ⟨p.dir, String.mk (safeStem translit p.stem.data), p.ext⟩) c)
          q = fsLookup fs q)) := by
  obtain ⟨d, st, e⟩ := p
  constructor
  · intro hsafe
    have heq : (⟨d, String.mk (safeStem translit st.data), e⟩ : ConvPath)
        = ⟨d, st, e⟩ := by rw [hsafe]
    unfold convert_name
    simp only []
    rw [if_neg (not_not_intro heq)]
  · intro hne
    have hpne : (⟨d, String.mk (safeStem translit st.data), e⟩ : ConvPath)
        ≠ ⟨d, st, e⟩ := by
      intro hcon
      exact hne (congrArg ConvPath.stem hcon)
    refine ⟨?_, ?_, ?_⟩
    · unfold convert_name
      simp only []
      rw [if_pos hpne, hfile]
    · by_cases hq : ConvPath.render ⟨d, st, e⟩
          = ConvPath.render ⟨d, String.mk (safeStem translit st.data), e⟩
      · simp [fsPut, fsLookup, List.lookup, hq]
      · simp only [fsPut, fsLookup, List.lookup,
          show (ConvPath.render ⟨d, st, e⟩
            == ConvPath.render
              ⟨d, String.mk (safeStem translit st.data), e⟩) = false by
            simp [hq]]
        exact hfile
    · intro q hq
      have hq2 : q ≠ ConvPath.render
          ⟨d, String.mk (safeStem translit st.data), e⟩ := hq
      simp only [fsPut, fsLookup, List.lookup]
      rw [beq_eq_false_iff_ne.mpr hq2]

/-- C8 amended witness: the stem `Song` sanitises to `song`, so the
file is duplicated under the sanitised stem and the original is left
in place. -/
theorem c8_convert_name_amended_witness :
    (String.mk (safeStem (fun c => [c]) ("Song" : String).data) = "Song" →
      convert_name (fun c => [c]) [("d/Song.mp3", 7)] ⟨"d/", "Song", ".mp3"⟩
        = .ok (⟨"d/", "Song", ".mp3"⟩, [("d/Song.mp3", 7)])) ∧
    (String.mk (safeStem (fun c => [c]) ("Song" : String).data) ≠ "Song" →
      convert_name (fun c => [c]) [("d/Song.mp3", 7)] ⟨"d/", "Song", ".mp3"⟩
        = .ok (⟨"d/", String.mk (safeStem (fun c => [c]) ("Song" : String).data),
            ".mp3"⟩,
          fsPut [("d/Song.mp3", 7)]
            (ConvPath.render ⟨"d/",
              String.mk (safeStem (fun c => [c]) ("Song" : String).data),
              ".mp3"⟩) 7) ∧
      fsLookup
        (fsPut [("d/Song.mp3", 7)]
          (ConvPath.render ⟨"d/",
            String.mk (safeStem (fun c => [c]) ("Song" : String).data),
            ".mp3"⟩) 7)
        (ConvPath.render ⟨"d/", "Song", ".mp3"⟩) = some 7 ∧
      (∀ q : String,
        q ≠ ConvPath.render ⟨"d/",
          String.mk (safeStem (fun c => [c]) ("Song" : String).data), ".mp3"⟩ →
        fsLookup
          (fsPut [("d/Song.mp3", 7)]
            (ConvPath.render ⟨"d/",
              String.mk (safeStem (fun c => [c]) ("Song" : String).data),
              ".mp3"⟩) 7)
          q = fsLookup [("d/Song.mp3", 7)] q)) :=
  c8_convert_name_amended (fun c => [c]) [("d/Song.mp3", 7)]
    ⟨"d/", "Song", ".mp3"⟩ 7 (by decide)

/- ======================================================================
   C10 — separate: output names, location and copied contents
   ====================================================================== -/

/-- C10: every successful `DemucsProcessor.separate` call returns
exactly the paths `<output_dir>/<input stem>-vocals.wav` and
`<output_dir>/<input stem>-instrumental.wav` (inside the caller's
`output_dir` by construction), and the final filesystem holds those two
files with the same contents the external separation wrote to the
model's shared default location
`separated/<model>/<input stem>/{vocals,no_vocals}.wav`. -/
theorem c10_separate_contract (runDemucs : FS → Except Unit FS)
    (input_stem output_dir model mode : String) (fs : FS)
    (v i : String) (fs2 : FS)
    (h : DemucsProcessor.separate runDemucs input_stem output_dir model mode
      fs = .ok (v, i, fs2)) :
    v = output_dir ++ "/" ++ input_stem ++ "-vocals.wav" ∧
    i = output_dir ++ "/" ++ input_stem ++ "-instrumental.wav" ∧
    ∃ fs1 cv cn, runDemucs fs = .ok fs1 ∧
      fsLookup fs1
        ("separated/" ++ model ++ "/" ++ input_stem ++ "/vocals.wav")
        = some cv ∧
      fsLookup fs1
        ("separated/" ++ model ++ "/" ++ input_stem ++ "/no_vocals.wav")
        = some cn ∧
      fs2 = fsPut (fsPut fs1 v cv) i cn ∧
      fsLookup fs2 i = some cn ∧
      fsLookup fs2 v = some cv := by
  unfold DemucsProcessor.separate at h
  by_cases hmode : mode ∈ ["standard", "vintage", "high_quality", "fast"]
  · rw [if_pos hmode] at h
    cases hrun : runDemucs fs with
    | error u => rw [hrun] at h; cases h
    | ok fs1 =>
        rw [hrun] at h
        clear hrun
        simp only [] at h
        cases hlv : fsLookup fs1
            ("separated/" ++ model ++ "/" ++ input_stem ++ "/vocals.wav") with
        | none => rw [hlv] at h; cases h
        | some cv =>
            cases hln : fsLookup fs1
                ("separated/" ++ model ++ "/" ++ input_stem
                  ++ "/no_vocals.wav") with
            | none => rw [hlv, hln] at h; cases h
            | some cn =>
                rw [hlv, hln] at h
                injection h with h1
                injection h1 with hv hrest
                injection hrest with hi hfs
                subst hv
                subst hi
                subst hfs
                have hvi : (output_dir ++ "/" ++ input_stem ++ "-vocals.wav")
                    ≠ output_dir ++ "/" ++ input_stem
                      ++ "-instrumental.wav" := by
                  intro hcon
                  have hlen := congrArg String.length hcon
                  simp only [String.length_append] at hlen
                  exact absurd (by omega : ("-vocals.wav" : String).length
                    = ("-instrumental.wav" : String).length) (by decide)
                refine ⟨rfl, rfl, fs1, cv, cn, rfl, hlv, hln, rfl, ?_, ?_⟩
                · simp [fsPut, fsLookup, List.lookup]
                · simp only [fsPut, fsLookup, List.lookup]
                  rw [beq_eq_false_iff_ne.mpr hvi]
                  simp
  · rw [if_neg hmode] at h
    cases h

/-- C10 witness: a concrete separation with the external tool writing
both stems to the shared default location. -/
theorem c10_separate_contract_witness :
    "wd/x-vocals.wav" = "wd" ++ "/" ++ "x" ++ "-vocals.wav" ∧
    "wd/x-instrumental.wav" = "wd" ++ "/" ++ "x" ++ "-instrumental.wav" ∧
    ∃ fs1 cv cn,
      (fun fs => (Except.ok (("separated/hdemucs_mmi/x/vocals.wav", 1)
          :: ("separated/hdemucs_mmi/x/no_vocals.wav", 2) :: fs)
            : Except Unit FS)) []
        = .ok fs1 ∧
      fsLookup fs1 ("separated/" ++ "hdemucs_mmi" ++ "/" ++ "x"
        ++ "/vocals.wav") = some cv ∧
      fsLookup fs1 ("separated/" ++ "hdemucs_mmi" ++ "/" ++ "x"
        ++ "/no_vocals.wav") = some cn ∧
      ([("wd/x-instrumental.wav", 2), ("wd/x-vocals.wav", 1),
        ("separated/hdemucs_mmi/x/vocals.wav", 1),
        ("separated/hdemucs_mmi/x/no_vocals.wav", 2)] : FS)
        = fsPut (fsPut fs1 "wd/x-vocals.wav" cv) "wd/x-instrumental.wav" cn ∧
      fsLookup [("wd/x-instrumental.wav", 2), ("wd/x-vocals.wav", 1),
        ("separated/hdemucs_mmi/x/vocals.wav", 1),
        ("separated/hdemucs_mmi/x/no_vocals.wav", 2)]
        "wd/x-instrumental.wav" = some cn ∧
      fsLookup [("wd/x-instrumental.wav", 2), ("wd/x-vocals.wav", 1),
        ("separated/hdemucs_mmi/x/vocals.wav", 1),
        ("separated/hdemucs_mmi/x/no_vocals.wav", 2)]
        "wd/x-vocals.wav" = some cv :=
  c10_separate_contract
    (fun fs => (Except.ok (("separated/hdemucs_mmi/x/vocals.wav", 1)
      :: ("separated/hdemucs_mmi/x/no_vocals.wav", 2) :: fs)
        : Except Unit FS))
    "x" "wd" "hdemucs_mmi" "vintage" [] "wd/x-vocals.wav"
    "wd/x-instrumental.wav"
    [("wd/x-instrumental.wav", 2), ("wd/x-vocals.wav", 1),
      ("separated/hdemucs_mmi/x/vocals.wav", 1),
      ("separated/hdemucs_mmi/x/no_vocals.wav", 2)]
    (by decide)

/- ======================================================================
   C1 — what run(input_path, job_root, job_id) returns
   ====================================================================== -/

/-- C1 counterexample: two fully successful runs on inputs whose final
mastered paths differ return the identical bare value — the integer
`0` paired with the same stage trace — so the return value cannot
contain the final mastered path or the vocal path: `run` does not
return the claimed `(success, final_path, vocal_path)` triple, it
returns `0` from the success path (and `1` from the top-level
`except`). -/
theorem c1_run_returns_no_paths_counterexample :
    pipelineRun (fun c => [c]) ⟨"audio/raw/", "trackA", ".mp3"⟩ "jobs/" 4
        ⟨true, true, true, true, true, true, true, true⟩
      = pipelineRun (fun c => [c]) ⟨"audio/raw/", "trackB", ".mp3"⟩ "jobs/" 4
        ⟨true, true, true, true, true, true, true, true⟩ ∧
    (pipelineRun (fun c => [c]) ⟨"audio/raw/", "trackA", ".mp3"⟩ "jobs/" 4
        ⟨true, true, true, true, true, true, true, true⟩).1 = 0 ∧
    finalMasteredPath (fun c => [c]) ⟨"audio/raw/", "trackA", ".mp3"⟩
        "jobs/" 4
      ≠ finalMasteredPath (fun c => [c]) ⟨"audio/raw/", "trackB", ".mp3"⟩
        "jobs/" 4 := by
  refine ⟨by decide, by decide, by decide⟩

/-- C1 amended: `run` returns only an integer status code — `0` when
every stage succeeds (where the denoising stages "succeed" exactly when
at least one of their backends does, since their boolean result is what
gates the next stage's input file) and `1` when the run fails — and no
paths. -/
theorem c1_run_returns_code_amended (translit : Char → List Char)
    (input_path : ConvPath) (nfs_dir : String) (uuid : Nat) (w : World) :
    (pipelineRun translit input_path nfs_dir uuid w).1 =
      if w.convertOk &&
          ((w.ffmpegPreOk || w.fallbackPreOk) && w.demucsOk) &&
          w.enhanceOk &&
          ((w.ffmpegPostOk || w.fallbackPostOk) && w.masterOk)
        then 0 else 1 := by
  rcases w with ⟨c, f1, f2, d, e, f3, f4, mo⟩
  cases c <;> cases f1 <;> cases f2 <;> cases d <;> cases e <;> cases f3
    <;> cases f4 <;> cases mo <;> rfl

/- ======================================================================
   C2 — failure propagation and the denoising stages
   ====================================================================== -/

/-- C2 counterexample: with both denoising backends failing,
`AudioRestorer.restore` returns `False` instead of raising, the
orchestrator ignores the value and proceeds into the SEPARATE stage
(stage index 2 is in the trace), and only then reports failure — a
failed denoising stage does not abort the remaining stages as the
claim states. -/
theorem c2_denoise_failure_counterexample :
    AudioRestorer.restore false false = false ∧
    pipelineRun (fun c => [c]) ⟨"audio/raw/", "track", ".mp3"⟩ "jobs/" 4
        ⟨true, false, false, true, true, true, true, true⟩
      = (1, [0, 1, 2]) ∧
    2 ∈ (pipelineRun (fun c => [c]) ⟨"audio/raw/", "track", ".mp3"⟩ "jobs/" 4
        ⟨true, false, false, true, true, true, true, true⟩).2 := by
  refine ⟨rfl, by decide, by decide⟩

/-- C2 amended: the denoising stage signals failure by its boolean
return value and never raises; the orchestrator ignores the value and
continues into SEPARATE, which then fails on the missing input — so a
failed pre-denoise produces the failure code `1` only after stage 2 was
attempted, rather than aborting all remaining stages at the denoise
stage itself. -/
theorem c2_denoise_no_abort_amended (translit : Char → List Char)
    (input_path : ConvPath) (nfs_dir : String) (uuid : Nat) (w : World)
    (hc : w.convertOk = true) (hf : w.ffmpegPreOk = false)
    (hb : w.fallbackPreOk = false) :
    AudioRestorer.restore w.ffmpegPreOk w.fallbackPreOk = false ∧
    pipelineRun translit input_path nfs_dir uuid w = (1, [0, 1, 2]) := by
  constructor
  · rw [hf, hb]
    rfl
  · unfold pipelineRun
    rw [hc, hf, hb]
    simp [AudioRestorer.restore, processVinyl]

/-- C2 amended witness: the concrete failing-denoise world. -/
theorem c2_denoise_no_abort_amended_witness :
    AudioRestorer.restore false false = false ∧
    pipelineRun (fun c => [c]) ⟨"audio/raw/", "track", ".mp3"⟩ "jobs/" 7
        ⟨true, false, false, true, true, true, true, true⟩
      = (1, [0, 1, 2]) :=
  c2_denoise_no_abort_amended (fun c => [c]) ⟨"audio/raw/", "track", ".mp3"⟩
    "jobs/" 7 ⟨true, false, false, true, true, true, true, true⟩ rfl rfl rfl
